import Mathlib

/-!
Shallow embedding of the BMP reader library of this repository.

Two copies of the reader exist in the sources and both are embedded here:
* `src/include/bp/bmp_reader.hpp` — class `BP`, `HeaderFactory`,
  `ColorTableFactory` (embedded as `BP.construct`,
  `HeaderFactory.createBitmapHeader`, `ColorTableFactory.createColorTable`);
* `src/bmp_reader.hpp` — class `BMPINFO`, `BitmapHeaderFactory`
  (embedded as `BMPINFO.construct`, `BitmapHeaderFactory.createBitmapHeader`).

Modelling conventions:
* A `std::ifstream` over the file contents is a `ByteStream`: the byte list,
  the get position and the fail state.  `file.read(buf, n)` extracts
  `min n avail` bytes and raises the fail flag when fewer than `n` bytes were
  available; extraction from an already failed stream yields nothing, and
  `seekg` on a failed stream has no effect, exactly as in C++.
* Packed structs are decoded from the byte chunk that a `read` call delivered;
  a byte the read did not deliver keeps the value of the member initialiser,
  which is `0` for every member of `BITMAPFILEHEADER` and `BITMAPCOREHEADER`
  in the source.  `List.getD _ _ 0` models this.
* The local `uint32_t header_size` in the two factories is uninitialised in
  C++ and is consumed without having been written exactly when the 4-byte
  size read fails.  The embedding passes the value it would then hold as an
  explicit `junk` parameter, so that theorems can quantify over it.
* A C++ `throw` is `Except.error`; a constructor that throws produces no
  object at all, so construction maps the file contents to
  `Except ParseError BPDoc`.
-/

namespace BmpReader

/-- The error exits of the two constructors and factories, one per distinct
`throw std::runtime_error(...)` site reachable from in-memory parsing. -/
inductive ParseError where
  | errorReadingFileHeader
  | invalidMagic
  | errorReadingBitmapHeader
  | invalidHeaderSize
deriving DecidableEq

/-- An `std::ifstream` opened in binary mode over the whole file contents:
byte data, get position, and whether the fail bit is set. -/
structure ByteStream where
  data : List Nat
  pos : Nat
  failed : Bool
deriving DecidableEq

/-- `file.read(buf, n)`: extracts up to `n` bytes from the current position;
sets the fail bit when fewer than `n` were available; a failed stream
extracts nothing. -/
def ByteStream.readRaw (s : ByteStream) (n : Nat) : List Nat × ByteStream :=
  if s.failed then ([], s)
  else
    ((s.data.drop s.pos).take n,
      ⟨s.data, s.pos + min n (s.data.length - s.pos),
        decide (s.data.length - s.pos < n)⟩)

/-- `file.seekg(-4, std::ios::cur)`: moves the get position four bytes back;
a failed stream ignores the seek, as in C++. -/
def ByteStream.seekBack4 (s : ByteStream) : ByteStream :=
  if s.failed then s else ⟨s.data, s.pos - 4, s.failed⟩

/-- Byte `i` of a decoded chunk; bytes beyond what the read delivered keep
the zero value of the member initialisers. -/
def byteAt (l : List Nat) (i : Nat) : Nat := l.getD i 0

/-- A little-endian `uint16_t` at byte offset `i` of a chunk. -/
def le16 (l : List Nat) (i : Nat) : Nat := byteAt l i + 256 * byteAt l (i + 1)

/-- A little-endian `uint32_t` at byte offset `i` of a chunk. -/
def le32 (l : List Nat) (i : Nat) : Nat :=
  byteAt l i + 256 * byteAt l (i + 1) + 65536 * byteAt l (i + 2) +
    16777216 * byteAt l (i + 3)

/-- The `validIdentifier` constant set of both source files: the `uint16_t`
values accepted as the magic tag. -/
def validIdentifier : List Nat := [0x4D42, 0x4142, 0x4349, 0x4350, 0x4943, 0x5450]

/-- Header length constants shared by both source files. -/
def BITMAPFILEHEADERLENGTH : Nat := 14

def BITMAPCOREHEADERLENGTH : Nat := 12

def OS22XBITMAPHEADERLENGTH : Nat := 64

def BITMAPINFOHEADERLENGTH : Nat := 40

def BITMAPV2INFOHEADERLENGTH : Nat := 52

def BITMAPV3INFOHEADERLENGTH : Nat := 56

def BITMAPV4HEADERLENGTH : Nat := 108

def BITMAPV5HEADERLENGTH : Nat := 124

/-- The packed 14-byte `BITMAPFILEHEADER`: `file_type` at offset 0,
`file_size` at 2, `reserved1` at 6, `reserved2` at 8, `offset` at 10. -/
structure BITMAPFILEHEADER where
  file_type : Nat
  file_size : Nat
  reserved1 : Nat
  reserved2 : Nat
  offset : Nat
deriving DecidableEq

/-- Decoding of the object representation after `file.read(ptr, 14)`:
members are value-initialised to zero and then overwritten by the bytes the
read delivered. -/
def BITMAPFILEHEADER.fromBytes (b : List Nat) : BITMAPFILEHEADER :=
  { file_type := le16 b 0
    file_size := le32 b 2
    reserved1 := le16 b 6
    reserved2 := le16 b 8
    offset := le32 b 10 }

/-- `BITMAPFILEHEADER::isValid`: membership of `file_type` in
`validIdentifier`. -/
def BITMAPFILEHEADER.isValid (h : BITMAPFILEHEADER) : Bool :=
  validIdentifier.contains h.file_type

/-- The packed `BITMAPCOREHEADER` struct of the source.  Its members are
`uint32_t header_size`, `uint32_t bitmap_width`, `uint32_t bitmap_height`,
`uint16_t color_planes`, `uint16_t bits_per_pixel`, so the struct occupies
16 bytes even though `BITMAPCOREHEADERLENGTH` is 12. -/
structure BITMAPCOREHEADER where
  header_size : Nat
  bitmap_width : Nat
  bitmap_height : Nat
  color_planes : Nat
  bits_per_pixel : Nat
deriving DecidableEq

/-- Decoding of the 16-byte object representation of `BITMAPCOREHEADER`
(offsets 0, 4, 8, 12, 14) from the chunk a read delivered; bytes the read
did not deliver keep the zero member initialisers. -/
def BITMAPCOREHEADER.ofObj (b : List Nat) : BITMAPCOREHEADER :=
  { header_size := le32 b 0
    bitmap_width := le32 b 4
    bitmap_height := le32 b 8
    color_planes := le16 b 12
    bits_per_pixel := le16 b 14 }

/-- The seven DIB header shapes handled by the factories.  Each carries the
bytes that `file.read` wrote into the packed struct object; every field of
every variant is a fixed-offset slice of those bytes (see
`BITMAPCOREHEADER.ofObj` for the core layout). -/
inductive DIBHeader where
  | core (obj : List Nat)
  | os22x (obj : List Nat)
  | info (obj : List Nat)
  | v2 (obj : List Nat)
  | v3 (obj : List Nat)
  | v4 (obj : List Nat)
  | v5 (obj : List Nat)
deriving DecidableEq

/-- The declared byte length of the variant dispatched to, i.e. the length
passed to the `file.read` call of the matching `switch` case. -/
def DIBHeader.declaredLength : DIBHeader → Nat
  | .core _ => BITMAPCOREHEADERLENGTH
  | .os22x _ => OS22XBITMAPHEADERLENGTH
  | .info _ => BITMAPINFOHEADERLENGTH
  | .v2 _ => BITMAPV2INFOHEADERLENGTH
  | .v3 _ => BITMAPV3INFOHEADERLENGTH
  | .v4 _ => BITMAPV4HEADERLENGTH
  | .v5 _ => BITMAPV5HEADERLENGTH

/-- `HeaderFactory::createBitmapHeader` of `src/include/bp/bmp_reader.hpp`:
read the 4-byte size tag, seek 4 bytes back, then switch over the seven
length constants, reading the matching fixed-length record; any other size
throws.  `junk` is the value the uninitialised local `header_size` holds
when the 4-byte read fails. -/
def HeaderFactory.createBitmapHeader (junk : Nat) (file : ByteStream) :
    Except ParseError (DIBHeader × ByteStream) :=
  let r := file.readRaw 4
  let header_size : Nat := if r.1.length = 4 then le32 r.1 0 else junk
  let s := r.2.seekBack4
  if header_size = BITMAPCOREHEADERLENGTH then
    let r2 := s.readRaw BITMAPCOREHEADERLENGTH
    Except.ok (DIBHeader.core r2.1, r2.2)
  else if header_size = OS22XBITMAPHEADERLENGTH then
    let r2 := s.readRaw OS22XBITMAPHEADERLENGTH
    Except.ok (DIBHeader.os22x r2.1, r2.2)
  else if header_size = BITMAPINFOHEADERLENGTH then
    let r2 := s.readRaw BITMAPINFOHEADERLENGTH
    Except.ok (DIBHeader.info r2.1, r2.2)
  else if header_size = BITMAPV2INFOHEADERLENGTH then
    let r2 := s.readRaw BITMAPV2INFOHEADERLENGTH
    Except.ok (DIBHeader.v2 r2.1, r2.2)
  else if header_size = BITMAPV3INFOHEADERLENGTH then
    let r2 := s.readRaw BITMAPV3INFOHEADERLENGTH
    Except.ok (DIBHeader.v3 r2.1, r2.2)
  else if header_size = BITMAPV4HEADERLENGTH then
    let r2 := s.readRaw BITMAPV4HEADERLENGTH
    Except.ok (DIBHeader.v4 r2.1, r2.2)
  else if header_size = BITMAPV5HEADERLENGTH then
    let r2 := s.readRaw BITMAPV5HEADERLENGTH
    Except.ok (DIBHeader.v5 r2.1, r2.2)
  else Except.error ParseError.invalidHeaderSize

/-- `BitmapHeaderFactory::createBitmapHeader` of `src/bmp_reader.hpp`: same
switch, but preceded by `if (!file) throw ...`.  The `DEBUG` line it prints
to stdout is not part of the parse outcome. -/
def BitmapHeaderFactory.createBitmapHeader (junk : Nat) (file : ByteStream) :
    Except ParseError (DIBHeader × ByteStream) :=
  if file.failed then Except.error ParseError.errorReadingBitmapHeader
  else
    let r := file.readRaw 4
    let header_size : Nat := if r.1.length = 4 then le32 r.1 0 else junk
    let s := r.2.seekBack4
    if header_size = BITMAPCOREHEADERLENGTH then
      let r2 := s.readRaw BITMAPCOREHEADERLENGTH
      Except.ok (DIBHeader.core r2.1, r2.2)
    else if header_size = OS22XBITMAPHEADERLENGTH then
      let r2 := s.readRaw OS22XBITMAPHEADERLENGTH
      Except.ok (DIBHeader.os22x r2.1, r2.2)
    else if header_size = BITMAPINFOHEADERLENGTH then
      let r2 := s.readRaw BITMAPINFOHEADERLENGTH
      Except.ok (DIBHeader.info r2.1, r2.2)
    else if header_size = BITMAPV2INFOHEADERLENGTH then
      let r2 := s.readRaw BITMAPV2INFOHEADERLENGTH
      Except.ok (DIBHeader.v2 r2.1, r2.2)
    else if header_size = BITMAPV3INFOHEADERLENGTH then
      let r2 := s.readRaw BITMAPV3INFOHEADERLENGTH
      Except.ok (DIBHeader.v3 r2.1, r2.2)
    else if header_size = BITMAPV4HEADERLENGTH then
      let r2 := s.readRaw BITMAPV4HEADERLENGTH
      Except.ok (DIBHeader.v4 r2.1, r2.2)
    else if header_size = BITMAPV5HEADERLENGTH then
      let r2 := s.readRaw BITMAPV5HEADERLENGTH
      Except.ok (DIBHeader.v5 r2.1, r2.2)
    else Except.error ParseError.invalidHeaderSize

/-- The `ColorInterface` base of both sources: blue, green, red components. -/
structure ColorInterface where
  blue : Nat
  green : Nat
  red : Nat
deriving DecidableEq

/-- The `ColorTable` class: a vector of colors. -/
structure ColorTable where
  colors : List ColorInterface
deriving DecidableEq

/-- `ColorTable::addColor`. -/
def ColorTable.addColor (t : ColorTable) (c : ColorInterface) : ColorTable :=
  ⟨t.colors ++ [c]⟩

/-- `ColorTableFactory::createColorTable` of `src/include/bp/bmp_reader.hpp`:
allocates an empty table; both the 32-bit and the 24-bit branches are TODO
stubs that add nothing; the empty table is returned for every bit depth. -/
def ColorTableFactory.createColorTable (bitsPerPixel : Nat) : ColorTable :=
  let colorTable : ColorTable := ⟨[]⟩
  if bitsPerPixel = 32 then colorTable
  else if bitsPerPixel = 24 then colorTable
  else colorTable

/-- The members of class `BP` (and, identically shaped, of class `BMPINFO`):
three owning pointers, each `none` until the constructor assigns it. -/
structure BPDoc where
  file_header : Option BITMAPFILEHEADER
  bitmap_header : Option DIBHeader
  color_table : Option ColorInterface
deriving DecidableEq

/-- The `BP::BP` constructor of `src/include/bp/bmp_reader.hpp` on the file
contents: read the 14-byte file header (the read result is not checked),
validate the magic, dispatch the DIB header; the color table member is never
assigned.  A throw anywhere destroys the partially built object, so an error
carries no parsed data. -/
def BP.construct (junk : Nat) (data : List Nat) : Except ParseError BPDoc :=
  let file : ByteStream := ⟨data, 0, false⟩
  let r := file.readRaw BITMAPFILEHEADERLENGTH
  let file_header := BITMAPFILEHEADER.fromBytes r.1
  if !file_header.isValid then Except.error ParseError.invalidMagic
  else
    match HeaderFactory.createBitmapHeader junk r.2 with
    | Except.error e => Except.error e
    | Except.ok hs => Except.ok ⟨some file_header, some hs.1, none⟩

/-- The `BMPINFO::BMPINFO` constructor of `src/bmp_reader.hpp` on the file
contents: it additionally checks the stream state after the 14-byte file
header read (`if (!file) throw ...`); otherwise it mirrors `BP.construct`. -/
def BMPINFO.construct (junk : Nat) (data : List Nat) : Except ParseError BPDoc :=
  let file : ByteStream := ⟨data, 0, false⟩
  let r := file.readRaw BITMAPFILEHEADERLENGTH
  if r.2.failed then Except.error ParseError.errorReadingFileHeader
  else
    let file_header := BITMAPFILEHEADER.fromBytes r.1
    if !file_header.isValid then Except.error ParseError.invalidMagic
    else
      match BitmapHeaderFactory.createBitmapHeader junk r.2 with
      | Except.error e => Except.error e
      | Except.ok hs => Except.ok ⟨some file_header, some hs.1, none⟩

/-- What a caller of the constructor can still reach afterwards: the parsed
file header on success, nothing when the constructor threw. -/
def resultFileHeader (r : Except ParseError BPDoc) : Option BITMAPFILEHEADER :=
  match r with
  | Except.ok d => d.file_header
  | Except.error _ => none

/-- The set of sizes the `switch` of both factories dispatches on, in source
order. -/
def knownHeaderSizes : List Nat :=
  [BITMAPCOREHEADERLENGTH, OS22XBITMAPHEADERLENGTH, BITMAPINFOHEADERLENGTH,
    BITMAPV2INFOHEADERLENGTH, BITMAPV3INFOHEADERLENGTH, BITMAPV4HEADERLENGTH,
    BITMAPV5HEADERLENGTH]

/-- The variant a recognized size dispatches to (specification-side helper
used to state the factory characterisation uniformly). -/
def variantFor (l : Nat) (chunk : List Nat) : DIBHeader :=
  if l = 12 then DIBHeader.core chunk
  else if l = 64 then DIBHeader.os22x chunk
  else if l = 40 then DIBHeader.info chunk
  else if l = 52 then DIBHeader.v2 chunk
  else if l = 56 then DIBHeader.v3 chunk
  else if l = 108 then DIBHeader.v4 chunk
  else if l = 124 then DIBHeader.v5 chunk
  else DIBHeader.core chunk

/-- A complete minimal document: valid BM magic, all other file header
fields zero (in particular `offset = 0`), followed by a 12-byte core DIB
record declaring width 2, height 3, one plane, 24 bits per pixel in the
on-disk OS/2 1.x layout (u16 fields at offsets 4, 6, 8, 10). -/
def exCoreDoc : List Nat :=
  [0x42, 0x4D, 0, 0, 0, 0, 0, 0, 0, 0, 0, 0, 0, 0,
    12, 0, 0, 0, 2, 0, 3, 0, 1, 0, 24, 0]

/-- Same document contents, separate copy used by the claim about the shape
of successfully constructed objects. -/
def exCoreDoc9 : List Nat :=
  [0x42, 0x4D, 0, 0, 0, 0, 0, 0, 0, 0, 0, 0, 0, 0,
    12, 0, 0, 0, 2, 0, 3, 0, 1, 0, 24, 0]

/-- Same document contents, separate copy used by the equivalence claim. -/
def exCoreDoc10 : List Nat :=
  [0x42, 0x4D, 0, 0, 0, 0, 0, 0, 0, 0, 0, 0, 0, 0,
    12, 0, 0, 0, 2, 0, 3, 0, 1, 0, 24, 0]

/-- Valid BM file header followed by the unrecognized size tag 999. -/
def exUnknown999 : List Nat :=
  [0x42, 0x4D, 0, 0, 0, 0, 0, 0, 0, 0, 0, 0, 0, 0, 0xE7, 0x03, 0, 0]

/-- Valid BM file header followed by the unrecognized size tag 1000. -/
def exUnknown1000 : List Nat :=
  [0x42, 0x4D, 0, 0, 0, 0, 0, 0, 0, 0, 0, 0, 0, 0, 0xE8, 0x03, 0, 0]

/-- Valid BM file header followed by the unrecognized size tag 1001. -/
def exUnknown1001 : List Nat :=
  [0x42, 0x4D, 0, 0, 0, 0, 0, 0, 0, 0, 0, 0, 0, 0, 0xE9, 0x03, 0, 0]

/-- A 16-byte OS/2 1.x truncated-core DIB record (declared size 16). -/
def exTruncatedCore16 : List Nat :=
  [16, 0, 0, 0, 1, 0, 1, 0, 1, 0, 8, 0, 0, 0, 0, 0]

/-- A 40-byte all-explicit `BITMAPINFOHEADER` record (declared size 40). -/
def exInfo40 : List Nat :=
  40 :: List.replicate 39 0

/-- The expected result of constructing `BP` from `exCoreDoc9`. -/
def exCoreDoc9Result : BPDoc :=
  ⟨some (BITMAPFILEHEADER.fromBytes (exCoreDoc9.take 14)),
    some (DIBHeader.core [12, 0, 0, 0, 2, 0, 3, 0, 1, 0, 24, 0]), none⟩

/-! ### Stream computation lemmas -/

theorem ByteStream.readRaw_mk (d : List Nat) (p n : Nat) :
    ByteStream.readRaw ⟨d, p, false⟩ n =
      ((d.drop p).take n,
        ⟨d, p + min n (d.length - p), decide (d.length - p < n)⟩) := rfl

theorem ByteStream.readRaw_of_le (d : List Nat) (p n : Nat)
    (h : p + n ≤ d.length) :
    ByteStream.readRaw ⟨d, p, false⟩ n =
      ((d.drop p).take n, ⟨d, p + n, false⟩) := by
  rw [ByteStream.readRaw_mk]
  have h1 : min n (d.length - p) = n := by omega
  have h2 : decide (d.length - p < n) = false := by
    simp only [decide_eq_false_iff_not]
    omega
  rw [h1, h2]

theorem ByteStream.seekBack4_after (d : List Nat) (p : Nat) :
    ByteStream.seekBack4 ⟨d, p + 4, false⟩ = ⟨d, p, false⟩ := by
  simp [ByteStream.seekBack4]

theorem take4_length (d : List Nat) (p : Nat) (h : p + 4 ≤ d.length) :
    ((d.drop p).take 4).length = 4 := by
  simp only [List.length_take, List.length_drop]
  omega

/-! ### Factory characterisation lemmas -/

/-- On a healthy stream holding a recognized size tag with the full record
available, the factory dispatches to the matching variant, hands it the
record bytes, and leaves the cursor at `start + declared length`. -/
theorem createBitmapHeader_of_known (junk : Nat) (d : List Nat) (p : Nat)
    (h4 : p + 4 ≤ d.length)
    (hmem : le32 ((d.drop p).take 4) 0 ∈ knownHeaderSizes)
    (hlen : p + le32 ((d.drop p).take 4) 0 ≤ d.length) :
    HeaderFactory.createBitmapHeader junk ⟨d, p, false⟩ =
      Except.ok
        (variantFor (le32 ((d.drop p).take 4) 0)
            ((d.drop p).take (le32 ((d.drop p).take 4) 0)),
          ⟨d, p + le32 ((d.drop p).take 4) 0, false⟩) := by
  simp only [knownHeaderSizes, BITMAPCOREHEADERLENGTH, OS22XBITMAPHEADERLENGTH,
    BITMAPINFOHEADERLENGTH, BITMAPV2INFOHEADERLENGTH, BITMAPV3INFOHEADERLENGTH,
    BITMAPV4HEADERLENGTH, BITMAPV5HEADERLENGTH, List.mem_cons,
    List.not_mem_nil, or_false] at hmem
  simp only [HeaderFactory.createBitmapHeader, BITMAPCOREHEADERLENGTH,
    OS22XBITMAPHEADERLENGTH, BITMAPINFOHEADERLENGTH, BITMAPV2INFOHEADERLENGTH,
    BITMAPV3INFOHEADERLENGTH, BITMAPV4HEADERLENGTH, BITMAPV5HEADERLENGTH,
    ByteStream.readRaw_of_le d p 4 h4, take4_length d p h4,
    ByteStream.seekBack4_after, if_true]
  rcases hmem with h | h | h | h | h | h | h <;>
    rw [h] at hlen ⊢ <;>
    rw [ByteStream.readRaw_of_le d p _ hlen] <;>
    simp [variantFor]

/-- On a healthy stream holding an unrecognized size tag, the factory hits
the `default` case and throws. -/
theorem createBitmapHeader_of_unknown (junk : Nat) (d : List Nat) (p : Nat)
    (h4 : p + 4 ≤ d.length)
    (hmem : le32 ((d.drop p).take 4) 0 ∉ knownHeaderSizes) :
    HeaderFactory.createBitmapHeader junk ⟨d, p, false⟩ =
      Except.error ParseError.invalidHeaderSize := by
  simp only [knownHeaderSizes, BITMAPCOREHEADERLENGTH, OS22XBITMAPHEADERLENGTH,
    BITMAPINFOHEADERLENGTH, BITMAPV2INFOHEADERLENGTH, BITMAPV3INFOHEADERLENGTH,
    BITMAPV4HEADERLENGTH, BITMAPV5HEADERLENGTH, List.mem_cons,
    List.not_mem_nil, or_false, not_or] at hmem
  obtain ⟨hne1, hne2, hne3, hne4, hne5, hne6, hne7⟩ := hmem
  simp only [HeaderFactory.createBitmapHeader, BITMAPCOREHEADERLENGTH,
    OS22XBITMAPHEADERLENGTH, BITMAPINFOHEADERLENGTH, BITMAPV2INFOHEADERLENGTH,
    BITMAPV3INFOHEADERLENGTH, BITMAPV4HEADERLENGTH, BITMAPV5HEADERLENGTH,
    ByteStream.readRaw_of_le d p 4 h4, take4_length d p h4,
    ByteStream.seekBack4_after, if_true]
  simp [hne1, hne2, hne3, hne4, hne5, hne6, hne7]

/-- The only difference between the two factory copies is the
`if (!file) throw` precheck, so on a healthy stream they coincide. -/
theorem factories_agree (junk : Nat) (s : ByteStream) (hf : s.failed = false) :
    BitmapHeaderFactory.createBitmapHeader junk s =
      HeaderFactory.createBitmapHeader junk s := by
  obtain ⟨d, p, f⟩ := s
  have hf2 : f = false := hf
  subst hf2
  rfl

/-- On a stream whose fail bit is already set, every read of the include
factory extracts nothing, so the uninitialised `header_size` (the `junk`
value) selects the branch. -/
theorem createBitmapHeader_failed (junk : Nat) (s : ByteStream)
    (hf : s.failed = true) :
    HeaderFactory.createBitmapHeader junk s =
      (if junk = 12 then Except.ok (DIBHeader.core [], s)
      else if junk = 64 then Except.ok (DIBHeader.os22x [], s)
      else if junk = 40 then Except.ok (DIBHeader.info [], s)
      else if junk = 52 then Except.ok (DIBHeader.v2 [], s)
      else if junk = 56 then Except.ok (DIBHeader.v3 [], s)
      else if junk = 108 then Except.ok (DIBHeader.v4 [], s)
      else if junk = 124 then Except.ok (DIBHeader.v5 [], s)
      else Except.error ParseError.invalidHeaderSize) := by
  obtain ⟨d, p, f⟩ := s
  have hf2 : f = true := hf
  subst hf2
  rfl

/-! ### Constructor characterisation lemmas -/

theorem BP_construct_eq (junk : Nat) (data : List Nat)
    (h14 : 14 ≤ data.length) :
    BP.construct junk data =
      (if !(BITMAPFILEHEADER.fromBytes (data.take 14)).isValid then
        Except.error ParseError.invalidMagic
      else
        match HeaderFactory.createBitmapHeader junk ⟨data, 14, false⟩ with
        | Except.error e => Except.error e
        | Except.ok hs =>
            Except.ok ⟨some (BITMAPFILEHEADER.fromBytes (data.take 14)),
              some hs.1, none⟩) := by
  simp only [BP.construct, BITMAPFILEHEADERLENGTH,
    ByteStream.readRaw_of_le data 0 14 (by omega), List.drop_zero,
    Nat.zero_add]

theorem BMPINFO_construct_eq (junk : Nat) (data : List Nat)
    (h14 : 14 ≤ data.length) :
    BMPINFO.construct junk data =
      (if !(BITMAPFILEHEADER.fromBytes (data.take 14)).isValid then
        Except.error ParseError.invalidMagic
      else
        match BitmapHeaderFactory.createBitmapHeader junk ⟨data, 14, false⟩ with
        | Except.error e => Except.error e
        | Except.ok hs =>
            Except.ok ⟨some (BITMAPFILEHEADER.fromBytes (data.take 14)),
              some hs.1, none⟩) := by
  simp only [BMPINFO.construct, BITMAPFILEHEADERLENGTH,
    ByteStream.readRaw_of_le data 0 14 (by omega), List.drop_zero,
    Nat.zero_add, Bool.false_eq_true, if_false]

/-- A `BP` construction that hits an unrecognized DIB size tag throws out of
the constructor with the invalid-header-size error. -/
theorem BP.construct_unknown_size (junk : Nat) (data : List Nat)
    (h18 : 18 ≤ data.length)
    (hmagic : (BITMAPFILEHEADER.fromBytes (data.take 14)).isValid = true)
    (hmem : le32 ((data.drop 14).take 4) 0 ∉ knownHeaderSizes) :
    BP.construct junk data = Except.error ParseError.invalidHeaderSize := by
  rw [BP_construct_eq junk data (by omega), hmagic,
    createBitmapHeader_of_unknown junk data 14 (by omega) hmem]
  simp

/-- For every recognized size, the variant dispatched to declares exactly
that size. -/
theorem variantFor_declaredLength (l : Nat) (chunk : List Nat)
    (hmem : l ∈ knownHeaderSizes) :
    (variantFor l chunk).declaredLength = l := by
  simp only [knownHeaderSizes, BITMAPCOREHEADERLENGTH, OS22XBITMAPHEADERLENGTH,
    BITMAPINFOHEADERLENGTH, BITMAPV2INFOHEADERLENGTH, BITMAPV3INFOHEADERLENGTH,
    BITMAPV4HEADERLENGTH, BITMAPV5HEADERLENGTH, List.mem_cons,
    List.not_mem_nil, or_false] at hmem
  rcases hmem with h | h | h | h | h | h | h <;> subst h <;> rfl

/-- Robustness of the divergence between the two constructors on the 2-byte
file `42 4D`: whatever the uninitialised `header_size` happens to hold,
`BP.construct` never reports the file-header read error that
`BMPINFO.construct` reports there. -/
theorem BP_construct_short_bm_never_read_error (junk : Nat) :
    BP.construct junk [0x42, 0x4D] ≠
      Except.error ParseError.errorReadingFileHeader := by
  have hstep : BP.construct junk [0x42, 0x4D] =
      match HeaderFactory.createBitmapHeader junk ⟨[0x42, 0x4D], 2, true⟩ with
      | Except.error e => Except.error e
      | Except.ok hs =>
          Except.ok ⟨some (BITMAPFILEHEADER.fromBytes [0x42, 0x4D]),
            some hs.1, none⟩ := rfl
  rw [hstep, createBitmapHeader_failed junk ⟨[0x42, 0x4D], 2, true⟩ rfl]
  by_cases h1 : junk = 12
  · subst h1
    simp
  by_cases h2 : junk = 64
  · subst h2
    simp
  by_cases h3 : junk = 40
  · subst h3
    simp
  by_cases h4 : junk = 52
  · subst h4
    simp
  by_cases h5 : junk = 56
  · subst h5
    simp
  by_cases h6 : junk = 108
  · subst h6
    simp
  by_cases h7 : junk = 124
  · subst h7
    simp
  simp [h1, h2, h3, h4, h5, h6, h7]

/-! ### The claims -/

/-- Claim C1: for a declared DIB size tag of 12, the registry is claimed to
read the 12-byte core record and expose width, height and bits-per-pixel
with the values stored in those 12 bytes.  Evaluation at a core record
declaring width 2, height 3, one plane, 24 bits per pixel (u16 fields at
byte offsets 4, 6, 8, 10 as on disk) shows the code reads the 12 bytes into
a 16-byte struct: the exposed `bits_per_pixel` (struct offset 14) and
`color_planes` (offset 12) stay at their zero initialisers although bytes
10..11 of the record store 24, and the width is misread as a 32-bit field
merging the on-disk width and height. -/
theorem C1_core_read_eval :
    HeaderFactory.createBitmapHeader 0
        ⟨[12, 0, 0, 0, 2, 0, 3, 0, 1, 0, 24, 0], 0, false⟩ =
      Except.ok (DIBHeader.core [12, 0, 0, 0, 2, 0, 3, 0, 1, 0, 24, 0],
        ⟨[12, 0, 0, 0, 2, 0, 3, 0, 1, 0, 24, 0], 12, false⟩) ∧
    le16 [12, 0, 0, 0, 2, 0, 3, 0, 1, 0, 24, 0] 10 = 24 ∧
    (BITMAPCOREHEADER.ofObj
        [12, 0, 0, 0, 2, 0, 3, 0, 1, 0, 24, 0]).bits_per_pixel = 0 ∧
    (BITMAPCOREHEADER.ofObj
        [12, 0, 0, 0, 2, 0, 3, 0, 1, 0, 24, 0]).color_planes = 0 ∧
    (BITMAPCOREHEADER.ofObj
        [12, 0, 0, 0, 2, 0, 3, 0, 1, 0, 24, 0]).bitmap_width = 196610 := by
  refine ⟨rfl, by decide, by decide, by decide, by decide⟩

/-- Claim C2, counterexample: a declared DIB size tag of 16 is not
dispatched as a truncated Core variant; the factory throws the
invalid-header-size error. -/
theorem C2_counterexample :
    HeaderFactory.createBitmapHeader 0 ⟨exTruncatedCore16, 0, false⟩ =
      Except.error ParseError.invalidHeaderSize := rfl

/-- Claim C2 as amended: the dispatch switch has no case for size 16; every
stream declaring size 16 fails with the invalid-header-size error instead of
being read as a Core variant at reduced length. -/
theorem C2_size16_rejected (junk : Nat) (d : List Nat) (p : Nat)
    (h4 : p + 4 ≤ d.length)
    (h16 : le32 ((d.drop p).take 4) 0 = 16) :
    HeaderFactory.createBitmapHeader junk ⟨d, p, false⟩ =
      Except.error ParseError.invalidHeaderSize := by
  apply createBitmapHeader_of_unknown junk d p h4
  rw [h16]
  decide

/-- Witness for `C2_size16_rejected` at the concrete 16-byte record. -/
theorem C2_size16_rejected_witness :
    HeaderFactory.createBitmapHeader 7 ⟨exTruncatedCore16, 0, false⟩ =
      Except.error ParseError.invalidHeaderSize :=
  C2_size16_rejected 7 exTruncatedCore16 0 (by decide) (by decide)

/-- Claim C3: the allow-list is claimed to hold the little-endian encodings
of the byte pairs BM, BA, CI, CP, IC, PT.  Evaluation shows the byte pair
`43 50` (the characters C and P, little-endian value `0x5043`) is rejected,
while the unlisted byte pair `50 43` (P then C, value `0x4350`, the constant
the source labels CP) is accepted; BM is accepted and `00 00` rejected as
claimed. -/
theorem C3_magic_eval :
    (BITMAPFILEHEADER.fromBytes ([0x43, 0x50] ++ List.replicate 12 0)).isValid
        = false ∧
    (BITMAPFILEHEADER.fromBytes ([0x50, 0x43] ++ List.replicate 12 0)).isValid
        = true ∧
    (BITMAPFILEHEADER.fromBytes ([0x42, 0x4D] ++ List.replicate 12 0)).isValid
        = true ∧
    (BITMAPFILEHEADER.fromBytes (List.replicate 14 0)).isValid = false := by
  decide

/-- Claim C4: any declared DIB size outside the seven-constant dispatch set
makes the whole `BP` construction fail with the invalid-header-size error;
no fallback shape is tried and no document is produced. -/
theorem C4_unknown_size_aborts (junk : Nat) (data : List Nat)
    (h18 : 18 ≤ data.length)
    (hmagic : (BITMAPFILEHEADER.fromBytes (data.take 14)).isValid = true)
    (hmem : le32 ((data.drop 14).take 4) 0 ∉ knownHeaderSizes) :
    BP.construct junk data = Except.error ParseError.invalidHeaderSize :=
  BP.construct_unknown_size junk data h18 hmagic hmem

/-- Witness for `C4_unknown_size_aborts` at size tag 999. -/
theorem C4_unknown_size_aborts_witness :
    BP.construct 0 exUnknown999 = Except.error ParseError.invalidHeaderSize :=
  C4_unknown_size_aborts 0 exUnknown999 (by decide) (by decide) (by decide)

/-- Claim C5, counterexample: a parse failing on the unrecognized size tag
1000 yields only the error; the caller can reach no file header — the
constructor threw, so no object was built. -/
theorem C5_counterexample :
    BP.construct 0 exUnknown1000 = Except.error ParseError.invalidHeaderSize ∧
    resultFileHeader (BP.construct 0 exUnknown1000) = none := ⟨rfl, rfl⟩

/-- Claim C5 as amended: on an unrecognized DIB size tag the constructor
throws; construction yields only the invalid-header-size error and the
already-parsed `BITMAPFILEHEADER` is not accessible to the caller. -/
theorem C5_no_partial_results (junk : Nat) (data : List Nat)
    (h18 : 18 ≤ data.length)
    (hmagic : (BITMAPFILEHEADER.fromBytes (data.take 14)).isValid = true)
    (hmem : le32 ((data.drop 14).take 4) 0 ∉ knownHeaderSizes) :
    BP.construct junk data = Except.error ParseError.invalidHeaderSize ∧
    resultFileHeader (BP.construct junk data) = none := by
  have h := BP.construct_unknown_size junk data h18 hmagic hmem
  rw [h]
  exact ⟨rfl, rfl⟩

/-- Witness for `C5_no_partial_results` at size tag 1001. -/
theorem C5_no_partial_results_witness :
    BP.construct 0 exUnknown1001 = Except.error ParseError.invalidHeaderSize ∧
    resultFileHeader (BP.construct 0 exUnknown1001) = none :=
  C5_no_partial_results 0 exUnknown1001 (by decide) (by decide) (by decide)

/-- Claim C6: for every recognized size tag, the factory peeks the 4-byte
little-endian size, seeks back, re-reads the full declared length through
the matching variant, and leaves the cursor exactly at
`start + declared length`. -/
theorem C6_peek_and_cursor (junk : Nat) (d : List Nat) (p : Nat)
    (h4 : p + 4 ≤ d.length)
    (hmem : le32 ((d.drop p).take 4) 0 ∈ knownHeaderSizes)
    (hlen : p + le32 ((d.drop p).take 4) 0 ≤ d.length) :
    ∃ h : DIBHeader,
      HeaderFactory.createBitmapHeader junk ⟨d, p, false⟩ =
        Except.ok (h, ⟨d, p + le32 ((d.drop p).take 4) 0, false⟩) ∧
      h.declaredLength = le32 ((d.drop p).take 4) 0 :=
  ⟨variantFor (le32 ((d.drop p).take 4) 0)
      ((d.drop p).take (le32 ((d.drop p).take 4) 0)),
    createBitmapHeader_of_known junk d p h4 hmem hlen,
    variantFor_declaredLength _ _ hmem⟩

/-- Witness for `C6_peek_and_cursor` at a 40-byte info record. -/
theorem C6_peek_and_cursor_witness :
    ∃ h : DIBHeader,
      HeaderFactory.createBitmapHeader 0 ⟨exInfo40, 0, false⟩ =
        Except.ok (h, ⟨exInfo40, 0 + le32 ((exInfo40.drop 0).take 4) 0,
          false⟩) ∧
      h.declaredLength = le32 ((exInfo40.drop 0).take 4) 0 :=
  C6_peek_and_cursor 0 exInfo40 0 (by decide) (by decide) (by decide)

/-- Claim C7: the color table is claimed to hold `colors_used` entries, or
`2 ^ bits_per_pixel` entries at indexed depths.  Evaluation shows the
factory is a stub returning an empty table at every bit depth — in
particular 4 bits per pixel yields 0 entries, not 16. -/
theorem C7_colortable_stub_empty :
    (ColorTableFactory.createColorTable 4).colors = [] ∧
    (ColorTableFactory.createColorTable 8).colors = [] ∧
    (ColorTableFactory.createColorTable 24).colors = [] ∧
    (ColorTableFactory.createColorTable 32).colors = [] := by
  decide

/-- Claim C8, counterexample: a document whose `pixel_data_offset` is 0 —
far below `14 + dib_header_size = 26` — parses successfully; the claimed
invariant is not enforced. -/
theorem C8_counterexample :
    BP.construct 0 exCoreDoc =
      Except.ok ⟨some (BITMAPFILEHEADER.fromBytes (exCoreDoc.take 14)),
        some (DIBHeader.core [12, 0, 0, 0, 2, 0, 3, 0, 1, 0, 24, 0]), none⟩ ∧
    (BITMAPFILEHEADER.fromBytes (exCoreDoc.take 14)).offset = 0 ∧
    (BITMAPFILEHEADER.fromBytes (exCoreDoc.take 14)).offset <
      14 + le32 [12, 0, 0, 0, 2, 0, 3, 0, 1, 0, 24, 0] 0 := by
  refine ⟨rfl, by decide, by decide⟩

/-- Claim C8 as amended: the parser reads `pixel_data_offset` but never
validates it; construction succeeds for every value of the four offset
bytes, so inputs violating `pixel_data_offset >= 14 + dib_header_size` are
accepted. -/
theorem C8_offset_unchecked (junk b10 b11 b12 b13 : Nat) :
    BP.construct junk
        [0x42, 0x4D, 0, 0, 0, 0, 0, 0, 0, 0, b10, b11, b12, b13,
          12, 0, 0, 0, 2, 0, 3, 0, 1, 0, 24, 0] =
      Except.ok
        ⟨some ⟨0x4D42, 0, 0, 0,
            b10 + 256 * b11 + 65536 * b12 + 16777216 * b13⟩,
          some (DIBHeader.core [12, 0, 0, 0, 2, 0, 3, 0, 1, 0, 24, 0]),
          none⟩ := by
  have hmem : le32 ((([0x42, 0x4D, 0, 0, 0, 0, 0, 0, 0, 0, b10, b11, b12, b13,
      12, 0, 0, 0, 2, 0, 3, 0, 1, 0, 24, 0] : List Nat).drop 14).take 4) 0 ∈
      knownHeaderSizes := by
    simp [le32, byteAt, knownHeaderSizes, BITMAPCOREHEADERLENGTH,
      OS22XBITMAPHEADERLENGTH, BITMAPINFOHEADERLENGTH, BITMAPV2INFOHEADERLENGTH,
      BITMAPV3INFOHEADERLENGTH, BITMAPV4HEADERLENGTH, BITMAPV5HEADERLENGTH]
  have hlen : 14 + le32 ((([0x42, 0x4D, 0, 0, 0, 0, 0, 0, 0, 0, b10, b11, b12,
      b13, 12, 0, 0, 0, 2, 0, 3, 0, 1, 0, 24, 0] : List Nat).drop 14).take 4) 0 ≤
      ([0x42, 0x4D, 0, 0, 0, 0, 0, 0, 0, 0, b10, b11, b12, b13,
        12, 0, 0, 0, 2, 0, 3, 0, 1, 0, 24, 0] : List Nat).length := by
    simp [le32, byteAt]
  rw [BP_construct_eq junk _ (by simp),
    createBitmapHeader_of_known junk _ 14 (by simp) hmem hlen]
  simp [BITMAPFILEHEADER.fromBytes, BITMAPFILEHEADER.isValid, validIdentifier,
    le16, le32, byteAt, variantFor]

/-- Claim C9: every successful `BP` construction carries a file header and a
DIB header, and its color table member is never assigned. -/
theorem C9_success_shape (junk : Nat) (data : List Nat) (doc : BPDoc)
    (h : BP.construct junk data = Except.ok doc) :
    doc.file_header.isSome = true ∧ doc.bitmap_header.isSome = true ∧
      doc.color_table = none := by
  simp only [BP.construct] at h
  split at h
  · exact absurd h (by simp)
  · split at h
    · exact absurd h (by simp)
    · rw [Except.ok.injEq] at h
      subst h
      exact ⟨rfl, rfl, rfl⟩

/-- Witness for `C9_success_shape` at the minimal core document. -/
theorem C9_success_shape_witness :
    exCoreDoc9Result.file_header.isSome = true ∧
    exCoreDoc9Result.bitmap_header.isSome = true ∧
    exCoreDoc9Result.color_table = none :=
  C9_success_shape 0 exCoreDoc9 exCoreDoc9Result rfl

/-- Claim C10, counterexample: on the 2-byte file `42 4D` the two reader
copies disagree — `BMPINFO` checks the file-header read and throws the
read error, while `BP` skips that check, accepts the magic assembled from
the truncated read, and fails later in DIB dispatch. -/
theorem C10_counterexample :
    BMPINFO.construct 0 [0x42, 0x4D] =
      Except.error ParseError.errorReadingFileHeader ∧
    BP.construct 0 [0x42, 0x4D] =
      Except.error ParseError.invalidHeaderSize := ⟨rfl, rfl⟩

/-- Claim C10 as amended: the two reader copies agree on every input long
enough for all reads they perform — at least 18 bytes, and at least
`14 + declared size` bytes when the declared size is recognized; they
diverge only on truncated inputs, because only `BMPINFO` checks the
file-header read. -/
theorem C10_equiv_complete (j1 j2 : Nat) (data : List Nat)
    (h18 : 18 ≤ data.length)
    (hrec : le32 ((data.drop 14).take 4) 0 ∈ knownHeaderSizes →
      14 + le32 ((data.drop 14).take 4) 0 ≤ data.length) :
    BMPINFO.construct j1 data = BP.construct j2 data := by
  rw [BMPINFO_construct_eq j1 data (by omega),
    BP_construct_eq j2 data (by omega),
    factories_agree j1 ⟨data, 14, false⟩ rfl]
  by_cases hmem : le32 ((data.drop 14).take 4) 0 ∈ knownHeaderSizes
  · rw [createBitmapHeader_of_known j1 data 14 (by omega) hmem (hrec hmem),
      createBitmapHeader_of_known j2 data 14 (by omega) hmem (hrec hmem)]
  · rw [createBitmapHeader_of_unknown j1 data 14 (by omega) hmem,
      createBitmapHeader_of_unknown j2 data 14 (by omega) hmem]

/-- Witness for `C10_equiv_complete` at the minimal core document, with two
different junk values. -/
theorem C10_equiv_complete_witness :
    BMPINFO.construct 1 exCoreDoc10 = BP.construct 2 exCoreDoc10 :=
  C10_equiv_complete 1 2 exCoreDoc10 (by decide) (by decide)

end BmpReader
